import Mathlib

/-!
Verification of the forum-topic client operations (`forum_topic.go`).

A shallow embedding of the twelve forum-topic operations of the telebot
client.  Each Go method builds a string-keyed parameter mapping, performs
a single call through the transport primitive `Bot.Raw`, and (for the two
value-returning operations) decodes the JSON `Result` envelope.

The collaborators that live outside the provided sources — the transport
primitive `Raw`, `Chat.Recipient`, `wrapError`, the `Sticker` record and
the JSON (un)marshalling of the standard library — are black boxes by the
spec's own scoping, so they are carried as abstract fields of the `Bot`
environment; every operation body below is a line-by-line translation of
the corresponding Go function.  Operations additionally return the list
of raw transport calls they performed, making call counts and endpoint
names observable.
-/

set_option autoImplicit false

namespace Telebot

/-- The outgoing parameter mapping `map[string]string`.  The Go code never
assigns the same key twice, so an association list with first-match lookup
models the map exactly. -/
abbrev Params := List (String × String)

/-- Lookup in the parameter mapping (Go map indexing, `v, ok := m[k]`). -/
def Params.get : Params → String → Option String
  | [], _ => none
  | (k, v) :: rest, key => if key = k then some v else Params.get rest key

/-- Modelled from the spec: a chat reference capable of producing a
recipient identifier.  `Chat` and its `Recipient` method are defined
outside the provided sources; only the produced string matters here. -/
structure Chat where
  recipient : String
deriving Repr, DecidableEq

/-- `Chat.Recipient()` — returns the chat's recipient identifier. -/
def Chat.Recipient (c : Chat) : String :=
  c.recipient

/-- `ForumTopic` represents a forum topic (name, thread id, icon color as
`int64`, optional custom-emoji icon id). -/
structure ForumTopic where
  Name : String
  MessageThreadID : Int
  IconColor : Int
  IconCustomEmojiID : String
deriving Repr, DecidableEq

/-- Modelled from the spec: a sticker descriptor as returned by the
icon-sticker listing.  The `Sticker` record is defined outside the
provided sources and none of its fields are inspected here. -/
structure Sticker where
  descriptor : String
deriving Repr, DecidableEq

/-- The decimal digit character for `d` (helper for the embedding of
`strconv` base-10 formatting; only ever applied to `d < 10`). -/
def digitChar (d : Nat) : Char :=
  match d with
  | 0 => '0'
  | 1 => '1'
  | 2 => '2'
  | 3 => '3'
  | 4 => '4'
  | 5 => '5'
  | 6 => '6'
  | 7 => '7'
  | 8 => '8'
  | _ => '9'

/-- Digit-accumulation loop of base-10 formatting: prepends the decimal
digits of `n` (most significant first) to `acc`.  The division loop
terminates structurally on the `fuel` counter; `fuel > n` always
suffices since `n` shrinks strictly at every division by ten. -/
def natToDecAux : Nat → Nat → List Char → List Char
  | 0, _, acc => acc
  | fuel + 1, n, acc =>
    if n < 10 then
      digitChar n :: acc
    else
      natToDecAux fuel (n / 10) (digitChar (n % 10) :: acc)

/-- Minimal base-10 decimal representation of a natural number. -/
def natToDec (n : Nat) : String :=
  ⟨natToDecAux (n + 1) n []⟩

/-- Embedding of `strconv.FormatInt(i, 10)`: minimal decimal digits,
preceded by a minus sign exactly for negative inputs. -/
def formatInt (i : Int) : String :=
  if i < 0 then "-" ++ natToDec i.natAbs else natToDec i.natAbs

/-- Embedding of `strconv.Itoa` (which is `FormatInt(int64(i), 10)`). -/
def itoa (i : Int) : String :=
  formatInt i

/-- One invocation of the transport primitive: the endpoint name and the
payload handed to `Bot.Raw` (`none` models a `nil` payload). -/
structure RawCall where
  method : String
  payload : Option Params
deriving Repr, DecidableEq

/-- The `Bot` receiver together with its black-box collaborators, passed
explicitly as the spec's design notes prescribe:
`raw` is the transport primitive `Bot.Raw` (returning either the response
body or a Go error), `newError` is `errors.New`, `wrapError` is the
package's error wrapper, and the two `unmarshal` fields are
`json.Unmarshal` into `struct{ Result *ForumTopic }` and
`struct{ Result []Sticker }` respectively (`none` models a `nil`
pointer/slice for an absent `Result`). -/
structure Bot (Err Body : Type) where
  raw : String → Option Params → Except Err Body
  newError : String → Err
  wrapError : Err → Err
  unmarshalTopicEnv : Body → Except Err (Option ForumTopic)
  unmarshalStickersEnv : Body → Except Err (Option (List Sticker))

variable {Err Body : Type}

/-- The parameter mapping built by `CreateForumTopic`: required
`chat_id` and `name`, then `icon_color` when `IconColor != 0` and
`icon_custom_emoji_id` when `IconCustomEmojiID != ""`. -/
def createForumTopicParams (chat : Chat) (ft : ForumTopic) : Params :=
  let params : Params := [("chat_id", chat.Recipient), ("name", ft.Name)]
  let params := if ft.IconColor ≠ 0 then
    params ++ [("icon_color", formatInt ft.IconColor)] else params
  if ft.IconCustomEmojiID ≠ "" then
    params ++ [("icon_custom_emoji_id", ft.IconCustomEmojiID)] else params

/-- `CreateForumTopic`: nil-descriptor check, parameter build, one raw
call to `createForumTopic`, then decoding of the `Result` envelope.
Returns the Go result pair (as an `Except`) and the raw-call trace. -/
def Bot.CreateForumTopic (b : Bot Err Body) (chat : Chat)
    (ft : Option ForumTopic) :
    Except Err (Option ForumTopic) × List RawCall :=
  match ft with
  | none => (.error (b.newError "telebot: forum topic is nil"), [])
  | some ft =>
    let params := createForumTopicParams chat ft
    match b.raw "createForumTopic" (some params) with
    | .error err => (.error err, [⟨"createForumTopic", some params⟩])
    | .ok data =>
      match b.unmarshalTopicEnv data with
      | .error err =>
        (.error (b.wrapError err), [⟨"createForumTopic", some params⟩])
      | .ok result => (.ok result, [⟨"createForumTopic", some params⟩])

/-- The parameter mapping built by `EditForumTopic`: required `chat_id`
and `message_thread_id`, then `name` and `icon_custom_emoji_id` when
non-empty. -/
def editForumTopicParams (chat : Chat) (msgThreadID : Int)
    (name icon : String) : Params :=
  let params : Params :=
    [("chat_id", chat.Recipient), ("message_thread_id", itoa msgThreadID)]
  let params := if name ≠ "" then params ++ [("name", name)] else params
  if icon ≠ "" then params ++ [("icon_custom_emoji_id", icon)] else params

/-- `EditForumTopic`: builds the parameters and performs one raw call to
`editForumTopic`; the response body is discarded, only the error is
returned (`none` models a `nil` Go error). -/
def Bot.EditForumTopic (b : Bot Err Body) (chat : Chat) (msgThreadID : Int)
    (name icon : String) : Option Err × List RawCall :=
  let params := editForumTopicParams chat msgThreadID name icon
  match b.raw "editForumTopic" (some params) with
  | .error err => (some err, [⟨"editForumTopic", some params⟩])
  | .ok _ => (none, [⟨"editForumTopic", some params⟩])

/-- The parameter mapping shared by the four thread-scoped mutators
(close, reopen, delete, unpin-all): exactly `chat_id` and
`message_thread_id`. -/
def threadParams (chat : Chat) (msgThreadID : Int) : Params :=
  [("chat_id", chat.Recipient), ("message_thread_id", itoa msgThreadID)]

/-- `CloseForumTopic`: one raw call to `closeForumTopic` with
`{chat_id, message_thread_id}`. -/
def Bot.CloseForumTopic (b : Bot Err Body) (chat : Chat)
    (msgThreadID : Int) : Option Err × List RawCall :=
  let params := threadParams chat msgThreadID
  match b.raw "closeForumTopic" (some params) with
  | .error err => (some err, [⟨"closeForumTopic", some params⟩])
  | .ok _ => (none, [⟨"closeForumTopic", some params⟩])

/-- `ReopenForumTopic`: one raw call to `reopenForumTopic` with
`{chat_id, message_thread_id}`. -/
def Bot.ReopenForumTopic (b : Bot Err Body) (chat : Chat)
    (msgThreadID : Int) : Option Err × List RawCall :=
  let params := threadParams chat msgThreadID
  match b.raw "reopenForumTopic" (some params) with
  | .error err => (some err, [⟨"reopenForumTopic", some params⟩])
  | .ok _ => (none, [⟨"reopenForumTopic", some params⟩])

/-- `DeleteForumTopic`: one raw call to `deleteForumTopic` with
`{chat_id, message_thread_id}`. -/
def Bot.DeleteForumTopic (b : Bot Err Body) (chat : Chat)
    (msgThreadID : Int) : Option Err × List RawCall :=
  let params := threadParams chat msgThreadID
  match b.raw "deleteForumTopic" (some params) with
  | .error err => (some err, [⟨"deleteForumTopic", some params⟩])
  | .ok _ => (none, [⟨"deleteForumTopic", some params⟩])

/-- `UnpinAllForumTopicMessages`: one raw call to
`unpinAllForumTopicMessages` with `{chat_id, message_thread_id}`. -/
def Bot.UnpinAllForumTopicMessages (b : Bot Err Body) (chat : Chat)
    (msgThreadID : Int) : Option Err × List RawCall :=
  let params := threadParams chat msgThreadID
  match b.raw "unpinAllForumTopicMessages" (some params) with
  | .error err => (some err, [⟨"unpinAllForumTopicMessages", some params⟩])
  | .ok _ => (none, [⟨"unpinAllForumTopicMessages", some params⟩])

/-- `GetForumTopicIconStickers`: one raw call to
`getForumTopicIconStickers` with a `nil` payload, then decoding of the
`Result` sticker list. -/
def Bot.GetForumTopicIconStickers (b : Bot Err Body) :
    Except Err (Option (List Sticker)) × List RawCall :=
  match b.raw "getForumTopicIconStickers" none with
  | .error err => (.error err, [⟨"getForumTopicIconStickers", none⟩])
  | .ok data =>
    match b.unmarshalStickersEnv data with
    | .error err =>
      (.error (b.wrapError err), [⟨"getForumTopicIconStickers", none⟩])
    | .ok result => (.ok result, [⟨"getForumTopicIconStickers", none⟩])

/-- The parameter mapping of `EditGeneralForumTopic`: `chat_id` and
`name`, the latter unconditionally. -/
def editGeneralParams (chat : Chat) (name : String) : Params :=
  [("chat_id", chat.Recipient), ("name", name)]

/-- `EditGeneralForumTopic`: one raw call to `editGeneralForumTopic` with
`{chat_id, name}` (name always included). -/
def Bot.EditGeneralForumTopic (b : Bot Err Body) (chat : Chat)
    (name : String) : Option Err × List RawCall :=
  let params := editGeneralParams chat name
  match b.raw "editGeneralForumTopic" (some params) with
  | .error err => (some err, [⟨"editGeneralForumTopic", some params⟩])
  | .ok _ => (none, [⟨"editGeneralForumTopic", some params⟩])

/-- The parameter mapping shared by the four General-topic visibility and
state mutators: exactly `chat_id`. -/
def chatOnlyParams (chat : Chat) : Params :=
  [("chat_id", chat.Recipient)]

/-- `CloseGeneralForumTopic`: one raw call to `closeGeneralForumTopic`
with `{chat_id}`. -/
def Bot.CloseGeneralForumTopic (b : Bot Err Body) (chat : Chat) :
    Option Err × List RawCall :=
  let params := chatOnlyParams chat
  match b.raw "closeGeneralForumTopic" (some params) with
  | .error err => (some err, [⟨"closeGeneralForumTopic", some params⟩])
  | .ok _ => (none, [⟨"closeGeneralForumTopic", some params⟩])

/-- `ReopenGeneralForumTopic`: one raw call to `reopenGeneralForumTopic`
with `{chat_id}`. -/
def Bot.ReopenGeneralForumTopic (b : Bot Err Body) (chat : Chat) :
    Option Err × List RawCall :=
  let params := chatOnlyParams chat
  match b.raw "reopenGeneralForumTopic" (some params) with
  | .error err => (some err, [⟨"reopenGeneralForumTopic", some params⟩])
  | .ok _ => (none, [⟨"reopenGeneralForumTopic", some params⟩])

/-- `HideGeneralForumTopic`: one raw call to `hideGeneralForumTopic`
with `{chat_id}`. -/
def Bot.HideGeneralForumTopic (b : Bot Err Body) (chat : Chat) :
    Option Err × List RawCall :=
  let params := chatOnlyParams chat
  match b.raw "hideGeneralForumTopic" (some params) with
  | .error err => (some err, [⟨"hideGeneralForumTopic", some params⟩])
  | .ok _ => (none, [⟨"hideGeneralForumTopic", some params⟩])

/-- `UnhideGeneralForumTopic`: one raw call to `unhideGeneralForumTopic`
with `{chat_id}`. -/
def Bot.UnhideGeneralForumTopic (b : Bot Err Body) (chat : Chat) :
    Option Err × List RawCall :=
  let params := chatOnlyParams chat
  match b.raw "unhideGeneralForumTopic" (some params) with
  | .error err => (some err, [⟨"unhideGeneralForumTopic", some params⟩])
  | .ok _ => (none, [⟨"unhideGeneralForumTopic", some params⟩])

/-- The Go error of a transport outcome: `none` models the `nil` error of
a successful `Raw` call, `some e` the error `e` it returned. -/
def errOf : Except Err Body → Option Err
  | .error e => some e
  | .ok _ => none

/-- The result of the `Result`-envelope decoding step of
`CreateForumTopic`, as a function of the transport outcome. -/
def decodeTopicOutcome (b : Bot Err Body) :
    Except Err Body → Except Err (Option ForumTopic)
  | .error e => .error e
  | .ok data =>
    match b.unmarshalTopicEnv data with
    | .error e => .error (b.wrapError e)
    | .ok r => .ok r

/-- The result of the `Result`-envelope decoding step of
`GetForumTopicIconStickers`, as a function of the transport outcome. -/
def decodeStickersOutcome (b : Bot Err Body) :
    Except Err Body → Except Err (Option (List Sticker))
  | .error e => .error e
  | .ok data =>
    match b.unmarshalStickersEnv data with
    | .error e => .error (b.wrapError e)
    | .ok r => .ok r

/-- A decimal digit character. -/
def isDecDigit (c : Char) : Prop :=
  c ∈ ['0', '1', '2', '3', '4', '5', '6', '7', '8', '9']

instance (c : Char) : Decidable (isDecDigit c) :=
  inferInstanceAs (Decidable (c ∈ _))

/-- Numeric value of a decimal digit character. -/
def decDigitVal (c : Char) : Nat :=
  c.toNat - 48

/-- The number denoted by a list of decimal digit characters read in
base 10. -/
def decValue (cs : List Char) : Nat :=
  cs.foldl (fun a c => 10 * a + decDigitVal c) 0

/-- The local memory visible to one call: the `Bot` receiver and the
pointed-to `Chat` and `ForumTopic` arguments.  The Go methods only ever
read through these pointers — no assignment through any of them occurs in
the file — so the memory-threaded forms of the operations below return
this record unchanged. -/
structure Mem (Err Body : Type) where
  bot : Bot Err Body
  chat : Chat
  topic : Option ForumTopic

/-- Memory-threaded `CreateForumTopic`. -/
def CreateForumTopicM (m : Mem Err Body) :
    (Except Err (Option ForumTopic) × List RawCall) × Mem Err Body :=
  (m.bot.CreateForumTopic m.chat m.topic, m)

/-- Memory-threaded `EditForumTopic`. -/
def EditForumTopicM (m : Mem Err Body) (msgThreadID : Int)
    (name icon : String) : (Option Err × List RawCall) × Mem Err Body :=
  (m.bot.EditForumTopic m.chat msgThreadID name icon, m)

/-- Memory-threaded `CloseForumTopic`. -/
def CloseForumTopicM (m : Mem Err Body) (msgThreadID : Int) :
    (Option Err × List RawCall) × Mem Err Body :=
  (m.bot.CloseForumTopic m.chat msgThreadID, m)

/-- Memory-threaded `ReopenForumTopic`. -/
def ReopenForumTopicM (m : Mem Err Body) (msgThreadID : Int) :
    (Option Err × List RawCall) × Mem Err Body :=
  (m.bot.ReopenForumTopic m.chat msgThreadID, m)

/-- Memory-threaded `DeleteForumTopic`. -/
def DeleteForumTopicM (m : Mem Err Body) (msgThreadID : Int) :
    (Option Err × List RawCall) × Mem Err Body :=
  (m.bot.DeleteForumTopic m.chat msgThreadID, m)

/-- Memory-threaded `UnpinAllForumTopicMessages`. -/
def UnpinAllForumTopicMessagesM (m : Mem Err Body) (msgThreadID : Int) :
    (Option Err × List RawCall) × Mem Err Body :=
  (m.bot.UnpinAllForumTopicMessages m.chat msgThreadID, m)

/-- Memory-threaded `GetForumTopicIconStickers`. -/
def GetForumTopicIconStickersM (m : Mem Err Body) :
    (Except Err (Option (List Sticker)) × List RawCall) × Mem Err Body :=
  (m.bot.GetForumTopicIconStickers, m)

/-- Memory-threaded `EditGeneralForumTopic`. -/
def EditGeneralForumTopicM (m : Mem Err Body) (name : String) :
    (Option Err × List RawCall) × Mem Err Body :=
  (m.bot.EditGeneralForumTopic m.chat name, m)

/-- Memory-threaded `CloseGeneralForumTopic`. -/
def CloseGeneralForumTopicM (m : Mem Err Body) :
    (Option Err × List RawCall) × Mem Err Body :=
  (m.bot.CloseGeneralForumTopic m.chat, m)

/-- Memory-threaded `ReopenGeneralForumTopic`. -/
def ReopenGeneralForumTopicM (m : Mem Err Body) :
    (Option Err × List RawCall) × Mem Err Body :=
  (m.bot.ReopenGeneralForumTopic m.chat, m)

/-- Memory-threaded `HideGeneralForumTopic`. -/
def HideGeneralForumTopicM (m : Mem Err Body) :
    (Option Err × List RawCall) × Mem Err Body :=
  (m.bot.HideGeneralForumTopic m.chat, m)

/-- Memory-threaded `UnhideGeneralForumTopic`. -/
def UnhideGeneralForumTopicM (m : Mem Err Body) :
    (Option Err × List RawCall) × Mem Err Body :=
  (m.bot.UnhideGeneralForumTopic m.chat, m)

/-- A sample chat reference used to instantiate universally quantified
theorems on concrete inputs. -/
def sampleChat : Chat :=
  ⟨"12345"⟩

/-- A sample topic descriptor (name "Bugs", thread id 12, the first of
the six permitted icon colors, no custom emoji). -/
def sampleTopic : ForumTopic :=
  ⟨"Bugs", 12, 7322096, ""⟩

/-- A concrete environment whose transport always fails with the error
"boom". -/
def errBot : Bot String String :=
  ⟨fun _ _ => .error "boom", id, fun e => "telebot: " ++ e,
    fun _ => .ok none, fun _ => .ok none⟩

/-- A concrete environment whose transport succeeds with a body that is
not valid JSON, so both unmarshalling collaborators fail. -/
def badJSONBot : Bot String String :=
  ⟨fun _ _ => .ok "not json", id, fun e => "telebot: " ++ e,
    fun _ => .error "invalid JSON", fun _ => .error "invalid JSON"⟩

/-- A concrete environment whose transport succeeds with a well-formed
JSON body that has no usable Result field, so both unmarshalling
collaborators succeed with an absent result. -/
def emptyEnvelopeBot : Bot String String :=
  ⟨fun _ _ => .ok "\x7b\x7d", id, fun e => "telebot: " ++ e,
    fun _ => .ok none, fun _ => .ok none⟩

@[simp]
theorem Params.get_nil (k : String) : Params.get [] k = none :=
  rfl

@[simp]
theorem Params.get_cons (k' v : String) (rest : Params) (k : String) :
    Params.get ((k', v) :: rest) k = if k = k' then some v else rest.get k :=
  rfl

theorem CreateForumTopic_eq (b : Bot Err Body) (chat : Chat)
    (ft : ForumTopic) :
    b.CreateForumTopic chat (some ft) =
      (decodeTopicOutcome b
        (b.raw "createForumTopic" (some (createForumTopicParams chat ft))),
       [⟨"createForumTopic", some (createForumTopicParams chat ft)⟩]) := by
  simp only [Bot.CreateForumTopic, decodeTopicOutcome]
  cases b.raw "createForumTopic" (some (createForumTopicParams chat ft)) with
  | error e => rfl
  | ok d =>
    dsimp only
    cases b.unmarshalTopicEnv d <;> rfl

theorem GetForumTopicIconStickers_eq (b : Bot Err Body) :
    b.GetForumTopicIconStickers =
      (decodeStickersOutcome b (b.raw "getForumTopicIconStickers" none),
       [⟨"getForumTopicIconStickers", none⟩]) := by
  simp only [Bot.GetForumTopicIconStickers, decodeStickersOutcome]
  cases b.raw "getForumTopicIconStickers" none with
  | error e => rfl
  | ok d =>
    dsimp only
    cases b.unmarshalStickersEnv d <;> rfl

theorem EditForumTopic_eq (b : Bot Err Body) (chat : Chat) (tid : Int)
    (nm icon : String) :
    b.EditForumTopic chat tid nm icon =
      (errOf (b.raw "editForumTopic"
        (some (editForumTopicParams chat tid nm icon))),
       [⟨"editForumTopic", some (editForumTopicParams chat tid nm icon)⟩]) := by
  simp only [Bot.EditForumTopic]
  cases b.raw "editForumTopic" (some (editForumTopicParams chat tid nm icon))
    <;> rfl

theorem CloseForumTopic_eq (b : Bot Err Body) (chat : Chat) (tid : Int) :
    b.CloseForumTopic chat tid =
      (errOf (b.raw "closeForumTopic" (some (threadParams chat tid))),
       [⟨"closeForumTopic", some (threadParams chat tid)⟩]) := by
  simp only [Bot.CloseForumTopic]
  cases b.raw "closeForumTopic" (some (threadParams chat tid)) <;> rfl

theorem ReopenForumTopic_eq (b : Bot Err Body) (chat : Chat) (tid : Int) :
    b.ReopenForumTopic chat tid =
      (errOf (b.raw "reopenForumTopic" (some (threadParams chat tid))),
       [⟨"reopenForumTopic", some (threadParams chat tid)⟩]) := by
  simp only [Bot.ReopenForumTopic]
  cases b.raw "reopenForumTopic" (some (threadParams chat tid)) <;> rfl

theorem DeleteForumTopic_eq (b : Bot Err Body) (chat : Chat) (tid : Int) :
    b.DeleteForumTopic chat tid =
      (errOf (b.raw "deleteForumTopic" (some (threadParams chat tid))),
       [⟨"deleteForumTopic", some (threadParams chat tid)⟩]) := by
  simp only [Bot.DeleteForumTopic]
  cases b.raw "deleteForumTopic" (some (threadParams chat tid)) <;> rfl

theorem UnpinAllForumTopicMessages_eq (b : Bot Err Body) (chat : Chat)
    (tid : Int) :
    b.UnpinAllForumTopicMessages chat tid =
      (errOf (b.raw "unpinAllForumTopicMessages"
        (some (threadParams chat tid))),
       [⟨"unpinAllForumTopicMessages", some (threadParams chat tid)⟩]) := by
  simp only [Bot.UnpinAllForumTopicMessages]
  cases b.raw "unpinAllForumTopicMessages" (some (threadParams chat tid))
    <;> rfl

theorem EditGeneralForumTopic_eq (b : Bot Err Body) (chat : Chat)
    (nm : String) :
    b.EditGeneralForumTopic chat nm =
      (errOf (b.raw "editGeneralForumTopic"
        (some (editGeneralParams chat nm))),
       [⟨"editGeneralForumTopic", some (editGeneralParams chat nm)⟩]) := by
  simp only [Bot.EditGeneralForumTopic]
  cases b.raw "editGeneralForumTopic" (some (editGeneralParams chat nm))
    <;> rfl

theorem CloseGeneralForumTopic_eq (b : Bot Err Body) (chat : Chat) :
    b.CloseGeneralForumTopic chat =
      (errOf (b.raw "closeGeneralForumTopic" (some (chatOnlyParams chat))),
       [⟨"closeGeneralForumTopic", some (chatOnlyParams chat)⟩]) := by
  simp only [Bot.CloseGeneralForumTopic]
  cases b.raw "closeGeneralForumTopic" (some (chatOnlyParams chat)) <;> rfl

theorem ReopenGeneralForumTopic_eq (b : Bot Err Body) (chat : Chat) :
    b.ReopenGeneralForumTopic chat =
      (errOf (b.raw "reopenGeneralForumTopic" (some (chatOnlyParams chat))),
       [⟨"reopenGeneralForumTopic", some (chatOnlyParams chat)⟩]) := by
  simp only [Bot.ReopenGeneralForumTopic]
  cases b.raw "reopenGeneralForumTopic" (some (chatOnlyParams chat)) <;> rfl

theorem HideGeneralForumTopic_eq (b : Bot Err Body) (chat : Chat) :
    b.HideGeneralForumTopic chat =
      (errOf (b.raw "hideGeneralForumTopic" (some (chatOnlyParams chat))),
       [⟨"hideGeneralForumTopic", some (chatOnlyParams chat)⟩]) := by
  simp only [Bot.HideGeneralForumTopic]
  cases b.raw "hideGeneralForumTopic" (some (chatOnlyParams chat)) <;> rfl

theorem UnhideGeneralForumTopic_eq (b : Bot Err Body) (chat : Chat) :
    b.UnhideGeneralForumTopic chat =
      (errOf (b.raw "unhideGeneralForumTopic" (some (chatOnlyParams chat))),
       [⟨"unhideGeneralForumTopic", some (chatOnlyParams chat)⟩]) := by
  simp only [Bot.UnhideGeneralForumTopic]
  cases b.raw "unhideGeneralForumTopic" (some (chatOnlyParams chat)) <;> rfl

theorem isDecDigit_digitChar : ∀ d : Nat, isDecDigit (digitChar d)
  | 0 | 1 | 2 | 3 | 4 | 5 | 6 | 7 | 8 => by decide
  | _ + 9 => show isDecDigit '9' from by decide

theorem digitChar_ne_zero : ∀ d : Nat, 1 ≤ d → digitChar d ≠ '0'
  | 0, h => absurd h (by decide)
  | 1, _ | 2, _ | 3, _ | 4, _ | 5, _ | 6, _ | 7, _ | 8, _ => by decide
  | _ + 9, _ => show ('9' : Char) ≠ '0' from by decide

theorem decDigitVal_digitChar : ∀ d : Nat, d < 10 →
    decDigitVal (digitChar d) = d
  | 0, _ | 1, _ | 2, _ | 3, _ | 4, _ | 5, _ | 6, _ | 7, _ | 8, _ | 9, _ =>
      by decide
  | n + 10, h => absurd h (by omega)

theorem natToDecAux_digits :
    ∀ (fuel n : Nat) (acc : List Char), (∀ c ∈ acc, isDecDigit c) →
      ∀ c ∈ natToDecAux fuel n acc, isDecDigit c := by
  intro fuel
  induction fuel with
  | zero => intro n acc hacc c hc; exact hacc c hc
  | succ fuel ih =>
    intro n acc hacc c hc
    rw [natToDecAux] at hc
    split at hc
    · rcases List.mem_cons.mp hc with h0 | h0
      · exact h0 ▸ isDecDigit_digitChar n
      · exact hacc c h0
    · refine ih (n / 10) _ ?_ c hc
      intro c' hc'
      rcases List.mem_cons.mp hc' with h0 | h0
      · exact h0 ▸ isDecDigit_digitChar (n % 10)
      · exact hacc c' h0

theorem natToDecAux_head :
    ∀ (fuel n : Nat), n < fuel → 1 ≤ n → ∀ acc : List Char,
      (natToDecAux fuel n acc).head? ≠ some '0' := by
  intro fuel
  induction fuel with
  | zero => intro n h; omega
  | succ fuel ih =>
    intro n hlt hn acc
    rw [natToDecAux]
    split
    · simpa using digitChar_ne_zero n hn
    · exact ih (n / 10) (by omega) (by omega) _

theorem natToDecAux_append :
    ∀ (fuel n : Nat) (acc : List Char),
      natToDecAux fuel n acc = natToDecAux fuel n [] ++ acc := by
  intro fuel
  induction fuel with
  | zero => intro n acc; rfl
  | succ fuel ih =>
    intro n acc
    conv_lhs => rw [natToDecAux]
    conv_rhs => rw [natToDecAux]
    split
    · simp
    · rw [ih (n / 10), ih (n / 10) [digitChar (n % 10)]]
      simp

theorem decValue_natToDecAux :
    ∀ (fuel n : Nat), n < fuel → decValue (natToDecAux fuel n []) = n := by
  intro fuel
  induction fuel with
  | zero => intro n h; omega
  | succ fuel ih =>
    intro n hlt
    rw [natToDecAux]
    split
    · rename_i h
      simp [decValue, decDigitVal_digitChar n h]
    · rename_i h
      rw [natToDecAux_append]
      unfold decValue
      rw [List.foldl_append]
      have h1 : decValue (natToDecAux fuel (n / 10) []) = n / 10 :=
        ih (n / 10) (by omega)
      unfold decValue at h1
      rw [h1]
      simp [decDigitVal_digitChar (n % 10) (Nat.mod_lt _ (by omega))]
      omega

theorem natToDec_data (n : Nat) :
    (natToDec n).data = natToDecAux (n + 1) n [] :=
  rfl

theorem decValue_natToDec (n : Nat) : decValue (natToDec n).data = n :=
  decValue_natToDecAux (n + 1) n (by omega)

theorem natToDec_digits (n : Nat) : ∀ c ∈ (natToDec n).data, isDecDigit c :=
  natToDecAux_digits (n + 1) n [] (by simp)

theorem natToDec_no_leading_zero (n : Nat) :
    natToDec n = "0" ∨ (natToDec n).data.head? ≠ some '0' := by
  rcases Nat.eq_zero_or_pos n with h | h
  · subst h
    exact Or.inl rfl
  · exact Or.inr (natToDecAux_head (n + 1) n (by omega) h [])

theorem isDecDigit_not_sign (c : Char) (h : isDecDigit c) :
    c ≠ '-' ∧ c ≠ '+' := by
  simp only [isDecDigit, List.mem_cons, List.not_mem_nil, or_false] at h
  rcases h with rfl | rfl | rfl | rfl | rfl | rfl | rfl | rfl | rfl | rfl <;>
    exact ⟨by decide, by decide⟩

theorem formatInt_ofNat (k : Nat) : formatInt (k : Int) = natToDec k := by
  unfold formatInt
  rw [if_neg (by omega)]
  congr 1

theorem itoa_ofNat (k : Nat) : itoa (k : Int) = natToDec k :=
  formatInt_ofNat k

/-- C1: for every chat reference and every combination of optional
inputs, the mapping built by `CreateForumTopic` holds exactly `chat_id`
and `name` plus `icon_color` exactly when `IconColor` is non-zero and
`icon_custom_emoji_id` exactly when `IconCustomEmojiID` is non-empty;
likewise the mapping built by `EditForumTopic` holds exactly `chat_id`
and `message_thread_id` plus `name` exactly when the name argument is
non-empty and `icon_custom_emoji_id` exactly when the icon argument is
non-empty. -/
theorem spec_C1_param_keys (chat : Chat) (ft : ForumTopic) (tid : Int)
    (nm icon k : String) :
    (((createForumTopicParams chat ft).get k).isSome ↔
      (k = "chat_id" ∨ k = "name" ∨
        (k = "icon_color" ∧ ft.IconColor ≠ 0) ∨
        (k = "icon_custom_emoji_id" ∧ ft.IconCustomEmojiID ≠ ""))) ∧
    (((editForumTopicParams chat tid nm icon).get k).isSome ↔
      (k = "chat_id" ∨ k = "message_thread_id" ∨
        (k = "name" ∧ nm ≠ "") ∨
        (k = "icon_custom_emoji_id" ∧ icon ≠ ""))) := by
  constructor
  · by_cases h1 : ft.IconColor = 0 <;>
      by_cases h2 : ft.IconCustomEmojiID = "" <;>
      by_cases hk1 : k = "chat_id" <;> by_cases hk2 : k = "name" <;>
      by_cases hk3 : k = "icon_color" <;>
      by_cases hk4 : k = "icon_custom_emoji_id" <;>
      simp_all [createForumTopicParams, Params.get]
  · by_cases h1 : nm = "" <;> by_cases h2 : icon = "" <;>
      by_cases hk1 : k = "chat_id" <;>
      by_cases hk2 : k = "message_thread_id" <;>
      by_cases hk3 : k = "name" <;>
      by_cases hk4 : k = "icon_custom_emoji_id" <;>
      simp_all [editForumTopicParams, Params.get]

/-- C1 witness: concrete instance of the key characterization. -/
theorem spec_C1_param_keys_witness :
    ((((createForumTopicParams sampleChat sampleTopic).get
        "icon_color").isSome ↔
      ("icon_color" = "chat_id" ∨ "icon_color" = "name" ∨
        ("icon_color" = "icon_color" ∧ sampleTopic.IconColor ≠ 0) ∨
        ("icon_color" = "icon_custom_emoji_id" ∧
          sampleTopic.IconCustomEmojiID ≠ ""))) ∧
    ((((editForumTopicParams sampleChat 12 "" "").get
        "icon_color").isSome) ↔
      ("icon_color" = "chat_id" ∨ "icon_color" = "message_thread_id" ∨
        ("icon_color" = "name" ∧ ("" : String) ≠ "") ∨
        ("icon_color" = "icon_custom_emoji_id" ∧ ("" : String) ≠ "")))) :=
  spec_C1_param_keys sampleChat sampleTopic 12 "" "" "icon_color"

/-- C2: calling `CreateForumTopic` with a nil topic descriptor yields a
nil result and the local validation error, and no transport call is
made (the raw-call trace is empty). -/
theorem spec_C2_nil_topic_local_error (Err Body : Type) (b : Bot Err Body)
    (chat : Chat) :
    b.CreateForumTopic chat none =
      (.error (b.newError "telebot: forum topic is nil"), []) :=
  rfl

/-- C3: when the transport primitive fails with error `e`, every one of
the twelve operations returns exactly `e` (and no result for the two
value-returning operations). -/
theorem spec_C3_transport_error_propagated (Err Body : Type)
    (b : Bot Err Body) (e : Err)
    (hraw : ∀ (m : String) (p : Option Params), b.raw m p = .error e)
    (chat : Chat) (ft : ForumTopic) (tid : Int) (nm icon : String) :
    (b.CreateForumTopic chat (some ft)).1 = .error e ∧
    (b.EditForumTopic chat tid nm icon).1 = some e ∧
    (b.CloseForumTopic chat tid).1 = some e ∧
    (b.ReopenForumTopic chat tid).1 = some e ∧
    (b.DeleteForumTopic chat tid).1 = some e ∧
    (b.UnpinAllForumTopicMessages chat tid).1 = some e ∧
    (b.GetForumTopicIconStickers).1 = .error e ∧
    (b.EditGeneralForumTopic chat nm).1 = some e ∧
    (b.CloseGeneralForumTopic chat).1 = some e ∧
    (b.ReopenGeneralForumTopic chat).1 = some e ∧
    (b.HideGeneralForumTopic chat).1 = some e ∧
    (b.UnhideGeneralForumTopic chat).1 = some e := by
  simp [CreateForumTopic_eq, EditForumTopic_eq, CloseForumTopic_eq,
    ReopenForumTopic_eq, DeleteForumTopic_eq, UnpinAllForumTopicMessages_eq,
    GetForumTopicIconStickers_eq, EditGeneralForumTopic_eq,
    CloseGeneralForumTopic_eq, ReopenGeneralForumTopic_eq,
    HideGeneralForumTopic_eq, UnhideGeneralForumTopic_eq,
    hraw, errOf, decodeTopicOutcome, decodeStickersOutcome]

/-- C3 witness: a concrete environment whose transport always fails with
"boom"; every operation surfaces exactly "boom". -/
theorem spec_C3_transport_error_witness :
    (errBot.CreateForumTopic sampleChat (some sampleTopic)).1 =
      .error "boom" ∧
    (errBot.EditForumTopic sampleChat 12 "Bugs" "").1 = some "boom" ∧
    (errBot.CloseForumTopic sampleChat 12).1 = some "boom" ∧
    (errBot.ReopenForumTopic sampleChat 12).1 = some "boom" ∧
    (errBot.DeleteForumTopic sampleChat 12).1 = some "boom" ∧
    (errBot.UnpinAllForumTopicMessages sampleChat 12).1 = some "boom" ∧
    (errBot.GetForumTopicIconStickers).1 = .error "boom" ∧
    (errBot.EditGeneralForumTopic sampleChat "Bugs").1 = some "boom" ∧
    (errBot.CloseGeneralForumTopic sampleChat).1 = some "boom" ∧
    (errBot.ReopenGeneralForumTopic sampleChat).1 = some "boom" ∧
    (errBot.HideGeneralForumTopic sampleChat).1 = some "boom" ∧
    (errBot.UnhideGeneralForumTopic sampleChat).1 = some "boom" :=
  spec_C3_transport_error_propagated String String errBot "boom"
    (fun _ _ => rfl) sampleChat sampleTopic 12 "Bugs" ""

/-- C4: when the transport succeeds but the unmarshalling collaborator
rejects the body, `CreateForumTopic` and `GetForumTopicIconStickers`
return no result and the parse error wrapped by `wrapError`. -/
theorem spec_C4_decode_failure_wrapped (Err Body : Type) (b : Bot Err Body)
    (chat : Chat) (ft : ForumTopic) (body1 body2 : Body) (pe1 pe2 : Err)
    (h1 : b.raw "createForumTopic"
      (some (createForumTopicParams chat ft)) = .ok body1)
    (h2 : b.unmarshalTopicEnv body1 = .error pe1)
    (h3 : b.raw "getForumTopicIconStickers" none = .ok body2)
    (h4 : b.unmarshalStickersEnv body2 = .error pe2) :
    (b.CreateForumTopic chat (some ft)).1 = .error (b.wrapError pe1) ∧
    (b.GetForumTopicIconStickers).1 = .error (b.wrapError pe2) := by
  constructor
  · simp [CreateForumTopic_eq, h1, decodeTopicOutcome, h2]
  · simp [GetForumTopicIconStickers_eq, h3, decodeStickersOutcome, h4]

/-- C4 witness: a concrete environment returning an unparsable body; both
decoding operations fail with the wrapped parse error. -/
theorem spec_C4_decode_failure_witness :
    (badJSONBot.CreateForumTopic sampleChat (some sampleTopic)).1 =
      .error "telebot: invalid JSON" ∧
    (badJSONBot.GetForumTopicIconStickers).1 =
      .error "telebot: invalid JSON" :=
  spec_C4_decode_failure_wrapped String String badJSONBot sampleChat
    sampleTopic "not json" "not json" "invalid JSON" "invalid JSON"
    rfl rfl rfl rfl

/-- C5: each operation performs exactly one transport call, addressed to
its designated endpoint name (and the nil-descriptor creation path
performs none). -/
theorem spec_C5_single_designated_endpoint (Err Body : Type)
    (b : Bot Err Body) (chat : Chat) (ft : ForumTopic) (tid : Int)
    (nm icon : String) :
    (b.CreateForumTopic chat none).2 = [] ∧
    (b.CreateForumTopic chat (some ft)).2 =
      [⟨"createForumTopic", some (createForumTopicParams chat ft)⟩] ∧
    (b.EditForumTopic chat tid nm icon).2 =
      [⟨"editForumTopic", some (editForumTopicParams chat tid nm icon)⟩] ∧
    (b.CloseForumTopic chat tid).2 =
      [⟨"closeForumTopic", some (threadParams chat tid)⟩] ∧
    (b.ReopenForumTopic chat tid).2 =
      [⟨"reopenForumTopic", some (threadParams chat tid)⟩] ∧
    (b.DeleteForumTopic chat tid).2 =
      [⟨"deleteForumTopic", some (threadParams chat tid)⟩] ∧
    (b.UnpinAllForumTopicMessages chat tid).2 =
      [⟨"unpinAllForumTopicMessages", some (threadParams chat tid)⟩] ∧
    (b.GetForumTopicIconStickers).2 =
      [⟨"getForumTopicIconStickers", none⟩] ∧
    (b.EditGeneralForumTopic chat nm).2 =
      [⟨"editGeneralForumTopic", some (editGeneralParams chat nm)⟩] ∧
    (b.CloseGeneralForumTopic chat).2 =
      [⟨"closeGeneralForumTopic", some (chatOnlyParams chat)⟩] ∧
    (b.ReopenGeneralForumTopic chat).2 =
      [⟨"reopenGeneralForumTopic", some (chatOnlyParams chat)⟩] ∧
    (b.HideGeneralForumTopic chat).2 =
      [⟨"hideGeneralForumTopic", some (chatOnlyParams chat)⟩] ∧
    (b.UnhideGeneralForumTopic chat).2 =
      [⟨"unhideGeneralForumTopic", some (chatOnlyParams chat)⟩] := by
  refine ⟨rfl, ?_, ?_, ?_, ?_, ?_, ?_, ?_, ?_, ?_, ?_, ?_, ?_⟩ <;>
    simp [CreateForumTopic_eq, EditForumTopic_eq, CloseForumTopic_eq,
      ReopenForumTopic_eq, DeleteForumTopic_eq,
      UnpinAllForumTopicMessages_eq, GetForumTopicIconStickers_eq,
      EditGeneralForumTopic_eq, CloseGeneralForumTopic_eq,
      ReopenGeneralForumTopic_eq, HideGeneralForumTopic_eq,
      UnhideGeneralForumTopic_eq]

/-- C5 witness: concrete instance of the endpoint/trace characterization. -/
theorem spec_C5_single_designated_endpoint_witness :
    (errBot.CreateForumTopic sampleChat none).2 = [] ∧
    (errBot.CreateForumTopic sampleChat (some sampleTopic)).2 =
      [⟨"createForumTopic",
        some (createForumTopicParams sampleChat sampleTopic)⟩] ∧
    (errBot.EditForumTopic sampleChat 12 "Bugs" "").2 =
      [⟨"editForumTopic",
        some (editForumTopicParams sampleChat 12 "Bugs" "")⟩] ∧
    (errBot.CloseForumTopic sampleChat 12).2 =
      [⟨"closeForumTopic", some (threadParams sampleChat 12)⟩] ∧
    (errBot.ReopenForumTopic sampleChat 12).2 =
      [⟨"reopenForumTopic", some (threadParams sampleChat 12)⟩] ∧
    (errBot.DeleteForumTopic sampleChat 12).2 =
      [⟨"deleteForumTopic", some (threadParams sampleChat 12)⟩] ∧
    (errBot.UnpinAllForumTopicMessages sampleChat 12).2 =
      [⟨"unpinAllForumTopicMessages", some (threadParams sampleChat 12)⟩] ∧
    (errBot.GetForumTopicIconStickers).2 =
      [⟨"getForumTopicIconStickers", none⟩] ∧
    (errBot.EditGeneralForumTopic sampleChat "Bugs").2 =
      [⟨"editGeneralForumTopic", some (editGeneralParams sampleChat "Bugs")⟩] ∧
    (errBot.CloseGeneralForumTopic sampleChat).2 =
      [⟨"closeGeneralForumTopic", some (chatOnlyParams sampleChat)⟩] ∧
    (errBot.ReopenGeneralForumTopic sampleChat).2 =
      [⟨"reopenGeneralForumTopic", some (chatOnlyParams sampleChat)⟩] ∧
    (errBot.HideGeneralForumTopic sampleChat).2 =
      [⟨"hideGeneralForumTopic", some (chatOnlyParams sampleChat)⟩] ∧
    (errBot.UnhideGeneralForumTopic sampleChat).2 =
      [⟨"unhideGeneralForumTopic", some (chatOnlyParams sampleChat)⟩] :=
  spec_C5_single_designated_endpoint String String errBot sampleChat
    sampleTopic 12 "Bugs" ""

/-- C6: non-negative integer fields placed in the parameter mapping —
icon color in `CreateForumTopic`, thread id in the thread-scoped
operations — are serialized as their minimal base-10 decimal text: the
stored string denotes the number in base 10, consists of decimal digits
only, has no leading zero, and carries no sign character. -/
theorem spec_C6_decimal_serialization (chat : Chat) (nm emoji : String)
    (tid : Int) (n m : Nat) :
    (createForumTopicParams chat ⟨nm, tid, ((n + 1 : Nat) : Int), emoji⟩).get
      "icon_color" = some (natToDec (n + 1)) ∧
    (threadParams chat (m : Int)).get "message_thread_id" =
      some (natToDec m) ∧
    (editForumTopicParams chat (m : Int) nm emoji).get "message_thread_id" =
      some (natToDec m) ∧
    decValue (natToDec m).data = m ∧
    (∀ c ∈ (natToDec m).data, isDecDigit c) ∧
    (natToDec m = "0" ∨ (natToDec m).data.head? ≠ some '0') ∧
    (∀ c ∈ (natToDec m).data, c ≠ '-' ∧ c ≠ '+') := by
  refine ⟨?_, ?_, ?_, decValue_natToDec m, natToDec_digits m,
    natToDec_no_leading_zero m,
    fun c hc => isDecDigit_not_sign c (natToDec_digits m c hc)⟩
  · have hfi : formatInt ((n : Int) + 1) = natToDec (n + 1) := by
      have h0 := formatInt_ofNat (n + 1)
      simpa using h0
    by_cases he : emoji = "" <;>
      simp [createForumTopicParams, Params.get, he, hfi]
  · simp [threadParams, Params.get, itoa_ofNat]
  · by_cases h1 : nm = "" <;> by_cases h2 : emoji = "" <;>
      simp [editForumTopicParams, Params.get, h1, h2, itoa_ofNat]

/-- C6 witness: concrete instance with icon color 7322096 and thread
id 12. -/
theorem spec_C6_decimal_serialization_witness :
    (createForumTopicParams sampleChat
        ⟨"Bugs", 12, ((7322095 + 1 : Nat) : Int), ""⟩).get "icon_color" =
      some (natToDec (7322095 + 1)) ∧
    (threadParams sampleChat ((12 : Nat) : Int)).get "message_thread_id" =
      some (natToDec 12) ∧
    (editForumTopicParams sampleChat ((12 : Nat) : Int) "Bugs" "").get
      "message_thread_id" = some (natToDec 12) ∧
    decValue (natToDec 12).data = 12 ∧
    (∀ c ∈ (natToDec 12).data, isDecDigit c) ∧
    (natToDec 12 = "0" ∨ (natToDec 12).data.head? ≠ some '0') ∧
    (∀ c ∈ (natToDec 12).data, c ≠ '-' ∧ c ≠ '+') :=
  spec_C6_decimal_serialization sampleChat "Bugs" "" 12 7322095 12

/-- C7: the operations without optional parameters send exactly their
required parameter set: the four thread-scoped mutators exactly
`{chat_id, message_thread_id}`, the four General-topic state mutators
exactly `{chat_id}`, the General edit exactly `{chat_id, name}` with
`name` always present (even when empty), and the icon-sticker listing a
nil payload. -/
theorem spec_C7_required_only_param_sets (Err Body : Type)
    (b : Bot Err Body) (chat : Chat) (tid : Int) (nm k : String) :
    (((threadParams chat tid).get k).isSome ↔
      (k = "chat_id" ∨ k = "message_thread_id")) ∧
    (((chatOnlyParams chat).get k).isSome ↔ k = "chat_id") ∧
    (((editGeneralParams chat nm).get k).isSome ↔
      (k = "chat_id" ∨ k = "name")) ∧
    (editGeneralParams chat nm).get "name" = some nm ∧
    (b.CloseForumTopic chat tid).2 =
      [⟨"closeForumTopic", some (threadParams chat tid)⟩] ∧
    (b.ReopenForumTopic chat tid).2 =
      [⟨"reopenForumTopic", some (threadParams chat tid)⟩] ∧
    (b.DeleteForumTopic chat tid).2 =
      [⟨"deleteForumTopic", some (threadParams chat tid)⟩] ∧
    (b.UnpinAllForumTopicMessages chat tid).2 =
      [⟨"unpinAllForumTopicMessages", some (threadParams chat tid)⟩] ∧
    (b.EditGeneralForumTopic chat nm).2 =
      [⟨"editGeneralForumTopic", some (editGeneralParams chat nm)⟩] ∧
    (b.CloseGeneralForumTopic chat).2 =
      [⟨"closeGeneralForumTopic", some (chatOnlyParams chat)⟩] ∧
    (b.ReopenGeneralForumTopic chat).2 =
      [⟨"reopenGeneralForumTopic", some (chatOnlyParams chat)⟩] ∧
    (b.HideGeneralForumTopic chat).2 =
      [⟨"hideGeneralForumTopic", some (chatOnlyParams chat)⟩] ∧
    (b.UnhideGeneralForumTopic chat).2 =
      [⟨"unhideGeneralForumTopic", some (chatOnlyParams chat)⟩] ∧
    (b.GetForumTopicIconStickers).2 =
      [⟨"getForumTopicIconStickers", none⟩] := by
  refine ⟨?_, ?_, ?_, ?_, ?_, ?_, ?_, ?_, ?_, ?_, ?_, ?_, ?_, ?_⟩
  · by_cases hk1 : k = "chat_id" <;>
      by_cases hk2 : k = "message_thread_id" <;>
      simp_all [threadParams, Params.get]
  · by_cases hk1 : k = "chat_id" <;> simp_all [chatOnlyParams, Params.get]
  · by_cases hk1 : k = "chat_id" <;> by_cases hk2 : k = "name" <;>
      simp_all [editGeneralParams, Params.get]
  · simp [editGeneralParams, Params.get]
  all_goals
    simp [CloseForumTopic_eq, ReopenForumTopic_eq, DeleteForumTopic_eq,
      UnpinAllForumTopicMessages_eq, EditGeneralForumTopic_eq,
      CloseGeneralForumTopic_eq, ReopenGeneralForumTopic_eq,
      HideGeneralForumTopic_eq, UnhideGeneralForumTopic_eq,
      GetForumTopicIconStickers_eq]

/-- C7 witness: concrete instance of the required-parameter-set facts. -/
theorem spec_C7_required_only_param_sets_witness :
    (((threadParams sampleChat 12).get "chat_id").isSome ↔
      ("chat_id" = "chat_id" ∨ "chat_id" = "message_thread_id")) ∧
    (((chatOnlyParams sampleChat).get "chat_id").isSome ↔
      "chat_id" = "chat_id") ∧
    (((editGeneralParams sampleChat "").get "chat_id").isSome ↔
      ("chat_id" = "chat_id" ∨ "chat_id" = "name")) ∧
    (editGeneralParams sampleChat "").get "name" = some "" ∧
    (errBot.CloseForumTopic sampleChat 12).2 =
      [⟨"closeForumTopic", some (threadParams sampleChat 12)⟩] ∧
    (errBot.ReopenForumTopic sampleChat 12).2 =
      [⟨"reopenForumTopic", some (threadParams sampleChat 12)⟩] ∧
    (errBot.DeleteForumTopic sampleChat 12).2 =
      [⟨"deleteForumTopic", some (threadParams sampleChat 12)⟩] ∧
    (errBot.UnpinAllForumTopicMessages sampleChat 12).2 =
      [⟨"unpinAllForumTopicMessages", some (threadParams sampleChat 12)⟩] ∧
    (errBot.EditGeneralForumTopic sampleChat "").2 =
      [⟨"editGeneralForumTopic", some (editGeneralParams sampleChat "")⟩] ∧
    (errBot.CloseGeneralForumTopic sampleChat).2 =
      [⟨"closeGeneralForumTopic", some (chatOnlyParams sampleChat)⟩] ∧
    (errBot.ReopenGeneralForumTopic sampleChat).2 =
      [⟨"reopenGeneralForumTopic", some (chatOnlyParams sampleChat)⟩] ∧
    (errBot.HideGeneralForumTopic sampleChat).2 =
      [⟨"hideGeneralForumTopic", some (chatOnlyParams sampleChat)⟩] ∧
    (errBot.UnhideGeneralForumTopic sampleChat).2 =
      [⟨"unhideGeneralForumTopic", some (chatOnlyParams sampleChat)⟩] ∧
    (errBot.GetForumTopicIconStickers).2 =
      [⟨"getForumTopicIconStickers", none⟩] :=
  spec_C7_required_only_param_sets String String errBot sampleChat 12 ""
    "chat_id"

/-- C8: no operation mutates local state.  Each memory-threaded form
returns the local memory (receiver, chat and topic descriptor) exactly
as received — the Go methods contain no assignment through any of their
pointers — and the only effect is the raw-call trace of at most one
outgoing transport call. -/
theorem spec_C8_no_local_mutation (Err Body : Type) (m : Mem Err Body)
    (tid : Int) (nm icon : String) :
    (CreateForumTopicM m).2 = m ∧
    (EditForumTopicM m tid nm icon).2 = m ∧
    (CloseForumTopicM m tid).2 = m ∧
    (ReopenForumTopicM m tid).2 = m ∧
    (DeleteForumTopicM m tid).2 = m ∧
    (UnpinAllForumTopicMessagesM m tid).2 = m ∧
    (GetForumTopicIconStickersM m).2 = m ∧
    (EditGeneralForumTopicM m nm).2 = m ∧
    (CloseGeneralForumTopicM m).2 = m ∧
    (ReopenGeneralForumTopicM m).2 = m ∧
    (HideGeneralForumTopicM m).2 = m ∧
    (UnhideGeneralForumTopicM m).2 = m ∧
    (CreateForumTopicM m).1.2.length ≤ 1 ∧
    (EditForumTopicM m tid nm icon).1.2.length = 1 ∧
    (CloseForumTopicM m tid).1.2.length = 1 ∧
    (ReopenForumTopicM m tid).1.2.length = 1 ∧
    (DeleteForumTopicM m tid).1.2.length = 1 ∧
    (UnpinAllForumTopicMessagesM m tid).1.2.length = 1 ∧
    (GetForumTopicIconStickersM m).1.2.length = 1 ∧
    (EditGeneralForumTopicM m nm).1.2.length = 1 ∧
    (CloseGeneralForumTopicM m).1.2.length = 1 ∧
    (ReopenGeneralForumTopicM m).1.2.length = 1 ∧
    (HideGeneralForumTopicM m).1.2.length = 1 ∧
    (UnhideGeneralForumTopicM m).1.2.length = 1 := by
  obtain ⟨b, chat, topic⟩ := m
  refine ⟨rfl, rfl, rfl, rfl, rfl, rfl, rfl, rfl, rfl, rfl, rfl, rfl,
    ?_, ?_, ?_, ?_, ?_, ?_, ?_, ?_, ?_, ?_, ?_, ?_⟩
  · cases topic with
    | none => simp [CreateForumTopicM, Bot.CreateForumTopic]
    | some t => simp [CreateForumTopicM, CreateForumTopic_eq]
  all_goals
    simp [EditForumTopicM, CloseForumTopicM, ReopenForumTopicM,
      DeleteForumTopicM, UnpinAllForumTopicMessagesM,
      GetForumTopicIconStickersM, EditGeneralForumTopicM,
      CloseGeneralForumTopicM, ReopenGeneralForumTopicM,
      HideGeneralForumTopicM, UnhideGeneralForumTopicM,
      EditForumTopic_eq, CloseForumTopic_eq, ReopenForumTopic_eq,
      DeleteForumTopic_eq, UnpinAllForumTopicMessages_eq,
      GetForumTopicIconStickers_eq, EditGeneralForumTopic_eq,
      CloseGeneralForumTopic_eq, ReopenGeneralForumTopic_eq,
      HideGeneralForumTopic_eq, UnhideGeneralForumTopic_eq]

/-- C8 witness: concrete instance of the frame property. -/
theorem spec_C8_no_local_mutation_witness :
    (CreateForumTopicM ⟨errBot, sampleChat, some sampleTopic⟩).2 =
      ⟨errBot, sampleChat, some sampleTopic⟩ ∧
    (EditForumTopicM ⟨errBot, sampleChat, some sampleTopic⟩ 12 "Bugs"
      "").2 = ⟨errBot, sampleChat, some sampleTopic⟩ ∧
    (CloseForumTopicM ⟨errBot, sampleChat, some sampleTopic⟩ 12).2 =
      ⟨errBot, sampleChat, some sampleTopic⟩ ∧
    (ReopenForumTopicM ⟨errBot, sampleChat, some sampleTopic⟩ 12).2 =
      ⟨errBot, sampleChat, some sampleTopic⟩ ∧
    (DeleteForumTopicM ⟨errBot, sampleChat, some sampleTopic⟩ 12).2 =
      ⟨errBot, sampleChat, some sampleTopic⟩ ∧
    (UnpinAllForumTopicMessagesM
      ⟨errBot, sampleChat, some sampleTopic⟩ 12).2 =
      ⟨errBot, sampleChat, some sampleTopic⟩ ∧
    (GetForumTopicIconStickersM ⟨errBot, sampleChat, some sampleTopic⟩).2 =
      ⟨errBot, sampleChat, some sampleTopic⟩ ∧
    (EditGeneralForumTopicM ⟨errBot, sampleChat, some sampleTopic⟩
      "Bugs").2 = ⟨errBot, sampleChat, some sampleTopic⟩ ∧
    (CloseGeneralForumTopicM ⟨errBot, sampleChat, some sampleTopic⟩).2 =
      ⟨errBot, sampleChat, some sampleTopic⟩ ∧
    (ReopenGeneralForumTopicM ⟨errBot, sampleChat, some sampleTopic⟩).2 =
      ⟨errBot, sampleChat, some sampleTopic⟩ ∧
    (HideGeneralForumTopicM ⟨errBot, sampleChat, some sampleTopic⟩).2 =
      ⟨errBot, sampleChat, some sampleTopic⟩ ∧
    (UnhideGeneralForumTopicM ⟨errBot, sampleChat, some sampleTopic⟩).2 =
      ⟨errBot, sampleChat, some sampleTopic⟩ ∧
    (CreateForumTopicM
      ⟨errBot, sampleChat, some sampleTopic⟩).1.2.length ≤ 1 ∧
    (EditForumTopicM ⟨errBot, sampleChat, some sampleTopic⟩ 12 "Bugs"
      "").1.2.length = 1 ∧
    (CloseForumTopicM
      ⟨errBot, sampleChat, some sampleTopic⟩ 12).1.2.length = 1 ∧
    (ReopenForumTopicM
      ⟨errBot, sampleChat, some sampleTopic⟩ 12).1.2.length = 1 ∧
    (DeleteForumTopicM
      ⟨errBot, sampleChat, some sampleTopic⟩ 12).1.2.length = 1 ∧
    (UnpinAllForumTopicMessagesM
      ⟨errBot, sampleChat, some sampleTopic⟩ 12).1.2.length = 1 ∧
    (GetForumTopicIconStickersM
      ⟨errBot, sampleChat, some sampleTopic⟩).1.2.length = 1 ∧
    (EditGeneralForumTopicM ⟨errBot, sampleChat, some sampleTopic⟩
      "Bugs").1.2.length = 1 ∧
    (CloseGeneralForumTopicM
      ⟨errBot, sampleChat, some sampleTopic⟩).1.2.length = 1 ∧
    (ReopenGeneralForumTopicM
      ⟨errBot, sampleChat, some sampleTopic⟩).1.2.length = 1 ∧
    (HideGeneralForumTopicM
      ⟨errBot, sampleChat, some sampleTopic⟩).1.2.length = 1 ∧
    (UnhideGeneralForumTopicM
      ⟨errBot, sampleChat, some sampleTopic⟩).1.2.length = 1 :=
  spec_C8_no_local_mutation String String
    ⟨errBot, sampleChat, some sampleTopic⟩ 12 "Bugs" ""

/-- C9: when the transport succeeds and the unmarshalling collaborator
succeeds with an absent `Result` (as `json.Unmarshal` does on a valid
JSON body with no usable Result field), `CreateForumTopic` returns a nil
topic with a nil error and `GetForumTopicIconStickers` returns a nil
slice with a nil error: the silent empty result. -/
theorem spec_C9_silent_empty_result (Err Body : Type) (b : Bot Err Body)
    (chat : Chat) (ft : ForumTopic) (body1 body2 : Body)
    (h1 : b.raw "createForumTopic"
      (some (createForumTopicParams chat ft)) = .ok body1)
    (h2 : b.unmarshalTopicEnv body1 = .ok none)
    (h3 : b.raw "getForumTopicIconStickers" none = .ok body2)
    (h4 : b.unmarshalStickersEnv body2 = .ok none) :
    b.CreateForumTopic chat (some ft) =
      (.ok none,
       [⟨"createForumTopic", some (createForumTopicParams chat ft)⟩]) ∧
    b.GetForumTopicIconStickers =
      (.ok none, [⟨"getForumTopicIconStickers", none⟩]) := by
  constructor
  · simp [CreateForumTopic_eq, h1, decodeTopicOutcome, h2]
  · simp [GetForumTopicIconStickers_eq, h3, decodeStickersOutcome, h4]

/-- C9 witness: a concrete environment whose body decodes to an empty
envelope; both decoding operations return the silent empty result. -/
theorem spec_C9_silent_empty_result_witness :
    emptyEnvelopeBot.CreateForumTopic sampleChat (some sampleTopic) =
      (.ok none,
       [⟨"createForumTopic",
         some (createForumTopicParams sampleChat sampleTopic)⟩]) ∧
    emptyEnvelopeBot.GetForumTopicIconStickers =
      (.ok none, [⟨"getForumTopicIconStickers", none⟩]) :=
  spec_C9_silent_empty_result String String emptyEnvelopeBot sampleChat
    sampleTopic "\x7b\x7d" "\x7b\x7d" rfl rfl rfl rfl

/-- C10: the ten mutating operations never inspect the response body:
their returned error is exactly the error component of the transport
outcome, so it is nil exactly when `Raw` returned a nil error,
irrespective of the body. -/
theorem spec_C10_mutators_ignore_body (Err Body : Type) (b : Bot Err Body)
    (chat : Chat) (tid : Int) (nm icon : String) :
    (b.EditForumTopic chat tid nm icon).1 =
      errOf (b.raw "editForumTopic"
        (some (editForumTopicParams chat tid nm icon))) ∧
    (b.CloseForumTopic chat tid).1 =
      errOf (b.raw "closeForumTopic" (some (threadParams chat tid))) ∧
    (b.ReopenForumTopic chat tid).1 =
      errOf (b.raw "reopenForumTopic" (some (threadParams chat tid))) ∧
    (b.DeleteForumTopic chat tid).1 =
      errOf (b.raw "deleteForumTopic" (some (threadParams chat tid))) ∧
    (b.UnpinAllForumTopicMessages chat tid).1 =
      errOf (b.raw "unpinAllForumTopicMessages"
        (some (threadParams chat tid))) ∧
    (b.EditGeneralForumTopic chat nm).1 =
      errOf (b.raw "editGeneralForumTopic"
        (some (editGeneralParams chat nm))) ∧
    (b.CloseGeneralForumTopic chat).1 =
      errOf (b.raw "closeGeneralForumTopic"
        (some (chatOnlyParams chat))) ∧
    (b.ReopenGeneralForumTopic chat).1 =
      errOf (b.raw "reopenGeneralForumTopic"
        (some (chatOnlyParams chat))) ∧
    (b.HideGeneralForumTopic chat).1 =
      errOf (b.raw "hideGeneralForumTopic" (some (chatOnlyParams chat))) ∧
    (b.UnhideGeneralForumTopic chat).1 =
      errOf (b.raw "unhideGeneralForumTopic"
        (some (chatOnlyParams chat))) ∧
    (∀ r : Except Err Body, errOf r = none ↔ ∃ d, r = .ok d) := by
  refine ⟨?_, ?_, ?_, ?_, ?_, ?_, ?_, ?_, ?_, ?_, ?_⟩
  · simp [EditForumTopic_eq]
  · simp [CloseForumTopic_eq]
  · simp [ReopenForumTopic_eq]
  · simp [DeleteForumTopic_eq]
  · simp [UnpinAllForumTopicMessages_eq]
  · simp [EditGeneralForumTopic_eq]
  · simp [CloseGeneralForumTopic_eq]
  · simp [ReopenGeneralForumTopic_eq]
  · simp [HideGeneralForumTopic_eq]
  · simp [UnhideGeneralForumTopic_eq]
  · intro r
    cases r <;> simp [errOf]

/-- C10 witness: concrete instance of the body-independence of the
mutating operations. -/
theorem spec_C10_mutators_ignore_body_witness :
    (emptyEnvelopeBot.EditForumTopic sampleChat 12 "Bugs" "").1 =
      errOf (emptyEnvelopeBot.raw "editForumTopic"
        (some (editForumTopicParams sampleChat 12 "Bugs" ""))) ∧
    (emptyEnvelopeBot.CloseForumTopic sampleChat 12).1 =
      errOf (emptyEnvelopeBot.raw "closeForumTopic"
        (some (threadParams sampleChat 12))) ∧
    (emptyEnvelopeBot.ReopenForumTopic sampleChat 12).1 =
      errOf (emptyEnvelopeBot.raw "reopenForumTopic"
        (some (threadParams sampleChat 12))) ∧
    (emptyEnvelopeBot.DeleteForumTopic sampleChat 12).1 =
      errOf (emptyEnvelopeBot.raw "deleteForumTopic"
        (some (threadParams sampleChat 12))) ∧
    (emptyEnvelopeBot.UnpinAllForumTopicMessages sampleChat 12).1 =
      errOf (emptyEnvelopeBot.raw "unpinAllForumTopicMessages"
        (some (threadParams sampleChat 12))) ∧
    (emptyEnvelopeBot.EditGeneralForumTopic sampleChat "Bugs").1 =
      errOf (emptyEnvelopeBot.raw "editGeneralForumTopic"
        (some (editGeneralParams sampleChat "Bugs"))) ∧
    (emptyEnvelopeBot.CloseGeneralForumTopic sampleChat).1 =
      errOf (emptyEnvelopeBot.raw "closeGeneralForumTopic"
        (some (chatOnlyParams sampleChat))) ∧
    (emptyEnvelopeBot.ReopenGeneralForumTopic sampleChat).1 =
      errOf (emptyEnvelopeBot.raw "reopenGeneralForumTopic"
        (some (chatOnlyParams sampleChat))) ∧
    (emptyEnvelopeBot.HideGeneralForumTopic sampleChat).1 =
      errOf (emptyEnvelopeBot.raw "hideGeneralForumTopic"
        (some (chatOnlyParams sampleChat))) ∧
    (emptyEnvelopeBot.UnhideGeneralForumTopic sampleChat).1 =
      errOf (emptyEnvelopeBot.raw "unhideGeneralForumTopic"
        (some (chatOnlyParams sampleChat))) ∧
    (∀ r : Except String String, errOf r = none ↔ ∃ d, r = .ok d) :=
  spec_C10_mutators_ignore_body String String emptyEnvelopeBot sampleChat
    12 "Bugs" ""

/-- C2 witness: concrete instance of the nil-descriptor validation
error. -/
theorem spec_C2_nil_topic_local_error_witness :
    errBot.CreateForumTopic sampleChat none =
      (.error "telebot: forum topic is nil", []) :=
  spec_C2_nil_topic_local_error String String errBot sampleChat

end Telebot
